import Mathlib

/-!
Verification of the BeatDash music-driven game engine.

The repository contains two near-duplicate engine sources:
* `src/src/game/engine.ts` (modelled in namespace `GameEngine`), and
* a second engine concatenated at the end of `src/src/types/game.ts`
  (modelled in namespace `DupEngine`).

JavaScript numbers are modelled as rationals; where IEEE behaviour at a
division by zero is observable it is modelled by an explicit case split,
documented at the definition.
-/

/-- PlaylistMetrics from src/src/types/game.ts (numeric fields only;
the string fields play no role in the claims). -/
structure PlaylistMetrics where
  avgTempo : ℚ
  avgEnergy : ℚ
  avgValence : ℚ
  avgAcousticness : ℚ
  avgDanceability : ℚ
  avgLoudness : ℚ
  trackCount : ℕ
deriving DecidableEq, Repr

/-- GameConfiguration from src/src/types/game.ts (the fields the engine
reads; gameType is a raw string because the configuration arrives from an
untyped JSON cast, which is what makes the default branch of createGame
reachable). -/
structure GameConfiguration where
  gameType : String
  gravity : ℚ
  playerSpeed : ℚ
  spawnRateMs : ℚ
  difficulty : ℤ
  metrics : Option PlaylistMetrics
deriving DecidableEq, Repr

namespace GameEngine

/-- Function getMusicSpawnRate of src/src/game/engine.ts:
if no metrics, return spawnRateMs; else
Math.max(400, Math.min(3000, (60000 / avgTempo) * (1.5 - avgEnergy))).
The source divides by the raw avgTempo with no fallback.  When
avgTempo = 0, JavaScript division yields an infinity with the sign of the
energy multiplier, which the min/max clamp sends to 3000 (positive
multiplier) or 400 (negative multiplier); that IEEE case is modelled by
the explicit zero branch. -/
def getMusicSpawnRate (config : GameConfiguration) : ℚ :=
  match config.metrics with
  | none => config.spawnRateMs
  | some m =>
      if m.avgTempo = 0 then
        (if 0 < 1.5 - m.avgEnergy then 3000 else 400)
      else
        max 400 (min 3000 ((60000 / m.avgTempo) * (1.5 - m.avgEnergy)))

/-- Function getMusicSpeedMultiplier of src/src/game/engine.ts:
1 if no metrics, else (avgTempo / 120) * (0.7 + avgEnergy * 0.6). -/
def getMusicSpeedMultiplier (config : GameConfiguration) : ℚ :=
  match config.metrics with
  | none => 1
  | some m => (m.avgTempo / 120) * (0.7 + m.avgEnergy * 0.6)

/-- Function getMusicGravity of src/src/game/engine.ts:
config.gravity if no metrics, else
config.gravity * (1.2 - avgAcousticness * 0.7). -/
def getMusicGravity (config : GameConfiguration) : ℚ :=
  match config.metrics with
  | none => config.gravity
  | some m => config.gravity * (1.2 - m.avgAcousticness * 0.7)

/-- Beat source of addBeatPulse in src/src/game/engine.ts:
config.metrics?.avgTempo || 120, a JavaScript falsy check, so a present
but zero tempo also falls back to 120. -/
def pulseBpm (config : GameConfiguration) : ℚ :=
  match config.metrics with
  | none => 120
  | some m => if m.avgTempo = 0 then 120 else m.avgTempo

/-- Beat interval of addBeatPulse in src/src/game/engine.ts: 60000 / bpm. -/
def beatIntervalMs (config : GameConfiguration) : ℚ :=
  60000 / pulseBpm config

end GameEngine

namespace DupEngine

/-- Function getBpm of the duplicate engine in src/src/types/game.ts:
config.metrics?.avgTempo || 120 (falsy check: zero tempo gives 120). -/
def getBpm (config : GameConfiguration) : ℚ :=
  match config.metrics with
  | none => 120
  | some m => if m.avgTempo = 0 then 120 else m.avgTempo

/-- Function getBeatMs of the duplicate engine: 60000 / getBpm. -/
def getBeatMs (config : GameConfiguration) : ℚ :=
  60000 / getBpm config

/-- Function getMusicSpawnRate of the duplicate engine in
src/src/types/game.ts: if no metrics, spawnRateMs; else
Math.max(400, Math.min(3000, getBeatMs * (1.5 - avgEnergy))).
Unlike the engine.ts copy this one divides by getBpm, never by zero. -/
def getMusicSpawnRate (config : GameConfiguration) : ℚ :=
  match config.metrics with
  | none => config.spawnRateMs
  | some m => max 400 (min 3000 (getBeatMs config * (1.5 - m.avgEnergy)))

/-- Function getMusicSpeedMultiplier of the duplicate engine:
1 if no metrics, else (avgTempo / 120) * (0.7 + avgEnergy * 0.6).
This copy reads avgTempo directly, without the getBpm fallback. -/
def getMusicSpeedMultiplier (config : GameConfiguration) : ℚ :=
  match config.metrics with
  | none => 1
  | some m => (m.avgTempo / 120) * (0.7 + m.avgEnergy * 0.6)

/-- Function getMusicGravity of the duplicate engine:
config.gravity if no metrics, else
config.gravity * (1.2 - avgAcousticness * 0.7). -/
def getMusicGravity (config : GameConfiguration) : ℚ :=
  match config.metrics with
  | none => config.gravity
  | some m => config.gravity * (1.2 - m.avgAcousticness * 0.7)

end DupEngine

/-- Four concrete controllers the createGame switch can set up. -/
inductive ControllerKind where
  | platformer
  | dodge
  | collector
  | runner
deriving DecidableEq, Repr

/-- Dispatch of createGame in src/src/game/engine.ts: a switch on
config.gameType whose default branch sets up the platformer controller.
The if-chain mirrors the first-match semantics of the switch. -/
def createGameController (gameType : String) : ControllerKind :=
  if gameType = "platformer" then ControllerKind.platformer
  else if gameType = "dodge" then ControllerKind.dodge
  else if gameType = "collector" then ControllerKind.collector
  else if gameType = "runner" then ControllerKind.runner
  else ControllerKind.platformer

/-- Invocations of the two external callbacks of createGame
(onScore and onGameOver, each carrying the score value passed). -/
inductive GameEvent where
  | onScore (score : ℚ)
  | onGameOver (score : ℚ)
deriving DecidableEq, Repr

/-- Calls into the session closure of createGame: addScore with some
delta, or a trigger of the gameOver path (hazard collision, fall, or
missed-reward threshold). -/
inductive SessionAction where
  | add (points : ℚ)
  | trigger
deriving DecidableEq, Repr

/-- Session closure of createGame in src/src/game/engine.ts, run over a
sequence of calls.  addScore does score += points and then calls
onScore(score); gameOver calls onGameOver(score) with no guard of any
kind (there is no terminal flag in the source).  The result is the final
score together with the emitted callback invocations in order. -/
def runSession (score : ℚ) : List SessionAction → ℚ × List GameEvent
  | [] => (score, [])
  | SessionAction.add p :: rest =>
      let r := runSession (score + p) rest
      (r.1, GameEvent.onScore (score + p) :: r.2)
  | SessionAction.trigger :: rest =>
      let r := runSession score rest
      (r.1, GameEvent.onGameOver score :: r.2)

/-- Number of onGameOver invocations in an event list. -/
def countGameOver (evs : List GameEvent) : ℕ :=
  evs.countP fun e =>
    match e with
    | GameEvent.onGameOver _ => true
    | _ => false

/-- Number of gameOver triggers in an action list. -/
def countTrigger (acts : List SessionAction) : ℕ :=
  acts.countP fun a =>
    match a with
    | SessionAction.trigger => true
    | _ => false

/-- Exit-viewport handler of setupCollector in src/src/game/engine.ts,
iterated over a run of uncollected reward exits: each exit kills the
reward, increments missed, and calls gameOver() whenever the new missed
value reaches maxMissed = 10.  Given the current missed counter and the
number of uncollected exits still to process, this yields the session
actions those exits perform. -/
def collectorActions (missed : ℕ) : ℕ → List SessionAction
  | 0 => []
  | Nat.succ n =>
      (if missed + 1 ≥ 10 then [SessionAction.trigger] else [])
        ++ collectorActions (missed + 1) n

/-- Visible effect of one firing of the beat-pulse timer: the opacity the
overlay is raised to, the duration of the fade back to zero, and the
camera shake (magnitude, duration) if one is triggered. -/
structure BeatFx where
  opacity : ℚ
  fadeMs : ℚ
  shake : Option (ℚ × ℚ)
deriving DecidableEq, Repr

/-- Timer body of addBeatPulse in src/src/game/engine.ts at the given
firing count: opacity is the constant 0.08, the fade runs over
beatInterval * 0.8, and no shake exists in this copy (the body keeps no
beat counter and never touches the camera). -/
def GameEngine.beatFx (config : GameConfiguration) (_count : ℕ) : BeatFx :=
  { opacity := 0.08
    fadeMs := GameEngine.beatIntervalMs config * 0.8
    shake := none }

/-- Energy read by addBeatPulse of the duplicate engine in
src/src/types/game.ts: config.metrics?.avgEnergy || 0.5, a falsy check,
so a present but zero energy also falls back to 0.5. -/
def DupEngine.pulseEnergy (config : GameConfiguration) : ℚ :=
  match config.metrics with
  | none => 0.5
  | some m => if m.avgEnergy = 0 then 0.5 else m.avgEnergy

/-- Timer body of addBeatPulse of the duplicate engine in
src/src/types/game.ts at the given firing count (beatCount has been
incremented before the checks, so the count here is 1 on the first
firing): opacity 0.04 + energy * 0.06, fade over beatInterval * 0.8, and
on every count divisible by 4 with energy above 0.5 a camera shake of
magnitude (energy - 0.5) * 6 lasting beatInterval * 0.3. -/
def DupEngine.beatFx (config : GameConfiguration) (count : ℕ) : BeatFx :=
  let energy := DupEngine.pulseEnergy config
  let beat := DupEngine.getBeatMs config
  { opacity := 0.04 + energy * 0.06
    fadeMs := beat * 0.8
    shake :=
      if count % 4 = 0 ∧ 0.5 < energy then
        some ((energy - 0.5) * 6, beat * 0.3)
      else none }

/-- State of one spawned reward of the collector mode: whether it is
still alive (processed by the substrate), whether it was collected, how
many times it incremented the missed counter, and how much score it
added. -/
structure RewardState where
  alive : Bool
  collected : Bool
  missedInc : ℕ
  scoreInc : ℚ
deriving DecidableEq, Repr

/-- Stimuli the substrate can deliver to one reward: an overlap with the
player (collisionstart) or leaving the play field (exitviewport). -/
inductive RewardStimulus where
  | overlapPlayer
  | leaveField
deriving DecidableEq, Repr

/-- Fresh reward as spawned by spawnParticle. -/
def RewardState.spawned : RewardState :=
  { alive := true, collected := false, missedInc := 0, scoreInc := 0 }

/-- Modelled from the spec: the entity/collision substrate (the excalibur
library) is not part of src/; per the spec, kill marks an entity
alive = false and excludes it from all future tick processing, so a dead
reward receives no further collision or exit events.  The handler bodies
are those of spawnParticle in setupCollector of src/src/game/engine.ts:
on collisionstart with the player, addScore(5) and kill; on
exitviewport, kill and count one miss. -/
def rewardStep (st : RewardState) (s : RewardStimulus) : RewardState :=
  if st.alive then
    match s with
    | RewardStimulus.overlapPlayer =>
        { st with alive := false, collected := true, scoreInc := st.scoreInc + 5 }
    | RewardStimulus.leaveField =>
        { st with alive := false, missedInc := st.missedInc + 1 }
  else st

/-- Run of one reward over a sequence of substrate stimuli. -/
def rewardRun (st : RewardState) : List RewardStimulus → RewardState
  | [] => st
  | s :: rest => rewardRun (rewardStep st s) rest

/-- Metrics of the worked spec example: tempo 140 BPM, energy 0.8,
acousticness 0.2. -/
def mTempo140 : PlaylistMetrics :=
  { avgTempo := 140, avgEnergy := 0.8, avgValence := 0.5,
    avgAcousticness := 0.2, avgDanceability := 0.6,
    avgLoudness := -7, trackCount := 20 }

/-- Metrics with full acousticness, for the second gravity example. -/
def mAcoustic : PlaylistMetrics := { mTempo140 with avgAcousticness := 1 }

/-- Metrics with a zero average tempo, the input separating the two
engine copies. -/
def mZeroTempo : PlaylistMetrics :=
  { avgTempo := 0, avgEnergy := 0.5, avgValence := 0.5,
    avgAcousticness := 0.5, avgDanceability := 0.5,
    avgLoudness := -10, trackCount := 0 }

/-- Metrics with maximal energy at the baseline tempo. -/
def mEnergy1 : PlaylistMetrics :=
  { avgTempo := 120, avgEnergy := 1, avgValence := 0.5,
    avgAcousticness := 0.3, avgDanceability := 0.5,
    avgLoudness := -5, trackCount := 12 }

/-- Configuration carrying the tempo-140 metrics. -/
def cfgMetrics : GameConfiguration :=
  { gameType := "runner", gravity := 1, playerSpeed := 200,
    spawnRateMs := 1000, difficulty := 5, metrics := some mTempo140 }

/-- Configuration carrying the fully acoustic metrics. -/
def cfgAcoustic : GameConfiguration := { cfgMetrics with metrics := some mAcoustic }

/-- Configuration with no metrics attached. -/
def cfgNoMetrics : GameConfiguration := { cfgMetrics with metrics := none }

/-- Configuration carrying the zero-tempo metrics. -/
def cfgZeroTempo : GameConfiguration :=
  { gameType := "dodge", gravity := 1.5, playerSpeed := 250,
    spawnRateMs := 1200, difficulty := 6, metrics := some mZeroTempo }

/-- Configuration carrying the maximal-energy metrics. -/
def cfgEnergy1 : GameConfiguration :=
  { gameType := "platformer", gravity := 1, playerSpeed := 180,
    spawnRateMs := 900, difficulty := 4, metrics := some mEnergy1 }

/-- Helper: every onGameOver emission of a session run comes from exactly
one trigger of the gameOver closure, because the closure has no guard. -/
theorem countGameOver_runSession (s : ℚ) (acts : List SessionAction) :
    countGameOver (runSession s acts).2 = countTrigger acts := by
  induction acts generalizing s with
  | nil => rfl
  | cons a rest ih =>
      cases a <;>
        simp only [runSession, countGameOver, countTrigger, List.countP_cons] <;>
        simpa [countGameOver, countTrigger] using ih _

/-- Helper: a session run over nonnegative deltas never decreases the
score. -/
theorem runSession_mono (s : ℚ) (acts : List SessionAction)
    (h : ∀ p, SessionAction.add p ∈ acts → 0 ≤ p) :
    s ≤ (runSession s acts).1 := by
  induction acts generalizing s with
  | nil => simp [runSession]
  | cons a rest ih =>
      cases a with
      | add p =>
          have hp : 0 ≤ p := h p (List.mem_cons_self _ _)
          have hrest : ∀ q, SessionAction.add q ∈ rest → 0 ≤ q :=
            fun q hq => h q (List.mem_cons_of_mem _ hq)
          simp only [runSession]
          exact le_trans (le_add_of_nonneg_right hp) (ih (s + p) hrest)
      | trigger =>
          simp only [runSession]
          exact ih s (fun q hq => h q (List.mem_cons_of_mem _ hq))

/-- Helper: number of gameOver triggers produced by a run of uncollected
reward exits, starting from a given missed counter. -/
theorem countTrigger_collectorActions (missed n : ℕ) :
    countTrigger (collectorActions missed n) = (missed + n) - max missed 9 := by
  induction n generalizing missed with
  | zero => simp [collectorActions, countTrigger]
  | succ n ih =>
      have hstep : countTrigger (collectorActions missed (n + 1)) =
          (if 10 ≤ missed + 1 then 1 else 0)
            + countTrigger (collectorActions (missed + 1) n) := by
        by_cases h : 10 ≤ missed + 1
        · simp [collectorActions, countTrigger, h, List.countP_append,
            List.countP_cons]
          omega
        · simp [collectorActions, countTrigger, h, List.countP_append,
            List.countP_cons]
      rw [hstep, ih (missed + 1)]
      by_cases h : 10 ≤ missed + 1
      · simp [h]
        omega
      · simp [h]
        omega


/-- C1 counterexample: two triggers of the gameOver path in one session
invoke onGameOver twice, because the gameOver closure of createGame has
no terminal flag; the claimed at-most-one invocation is false. -/
theorem gameOver_double_trigger_fires_twice :
    countGameOver (runSession 0 [SessionAction.trigger, SessionAction.trigger]).2 = 2 := by
  decide

/-- C1 amended: onGameOver is invoked exactly once per trigger of the
gameOver path (not once per session): a run with n triggers emits n
onGameOver invocations, each passing the score current at that moment. -/
theorem gameOver_once_per_trigger :
    ∀ (s : ℚ) (acts : List SessionAction),
      countGameOver (runSession s acts).2 = countTrigger acts ∧
      runSession s [SessionAction.trigger] = (s, [GameEvent.onGameOver s]) :=
  fun s acts => ⟨countGameOver_runSession s acts, rfl⟩

/-- C2 counterexample: an addScore after a gameOver trigger still
mutates the score and still emits onScore — the source has no terminal
flag, so addScore is not a no-op after game over. -/
theorem addScore_after_trigger_still_mutates :
    (runSession 0 [SessionAction.trigger, SessionAction.add 10]).1 = 10 ∧
    (runSession 0 [SessionAction.trigger, SessionAction.add 10]).2 =
      [GameEvent.onGameOver 0, GameEvent.onScore 10] := by
  refine ⟨?_, ?_⟩ <;> norm_num [runSession]

/-- C2 amended: the score is non-decreasing over any run whose deltas
are nonnegative (the controllers only ever pass 1, 5 or 10), and every
addScore reports the new total through onScore; there is no terminal
guard, so this keeps holding across gameOver triggers rather than score
becoming unreachable. -/
theorem score_monotone_without_terminal_guard :
    ∀ (s : ℚ) (acts : List SessionAction),
      (∀ p, SessionAction.add p ∈ acts → 0 ≤ p) →
      s ≤ (runSession s acts).1 ∧
      ∀ (q p : ℚ),
        runSession q [SessionAction.add p] = (q + p, [GameEvent.onScore (q + p)]) :=
  fun s acts h => ⟨runSession_mono s acts h, fun _ _ => rfl⟩

/-- Witness for the C2 theorem at a concrete run. -/
theorem score_monotone_witness :
    (0 : ℚ) ≤ (runSession 0
      [SessionAction.add 10, SessionAction.trigger, SessionAction.add 5]).1 ∧
    ∀ (q p : ℚ),
      runSession q [SessionAction.add p] = (q + p, [GameEvent.onScore (q + p)]) :=
  score_monotone_without_terminal_guard 0
    [SessionAction.add 10, SessionAction.trigger, SessionAction.add 5]
    (by
      intro p hp
      simp only [List.mem_cons, List.not_mem_nil, or_false] at hp
      rcases hp with h | h | h
      · cases h; norm_num
      · exact absurd h (by simp)
      · cases h; norm_num)

/-- C3 counterexample: eleven uncollected reward exits make onGameOver
fire twice (at the 10th and again at the 11th exit), because gameOver
has no terminal guard; the claimed exactly-once firing is false. -/
theorem collector_eleventh_exit_refires :
    countGameOver (runSession 0 (collectorActions 0 11)).2 = 2 := by
  decide

/-- C3 amended: in collector mode onGameOver first fires when the missed
counter reaches maxMissed = 10, and it fires again on every further
uncollected exit: after n uncollected exits it has fired n - 9 times
(truncated subtraction, so 0 times up to 9 exits and once at 10). -/
theorem collector_gameOver_count (n : ℕ) :
    countGameOver (runSession 0 (collectorActions 0 n)).2 = n - 9 := by
  rw [countGameOver_runSession, countTrigger_collectorActions]
  omega

/-- C4: spawn interval of src/src/game/engine.ts — spawnRateMs when
metrics are absent; the clamped beat-scaled formula when metrics are
present (at any nonzero tempo, which a division by tempo presupposes);
and membership of [400, 3000] for every positive tempo and energy in
[0, 1]. -/
theorem spawnInterval_spec (cfg : GameConfiguration) :
    (cfg.metrics = none → GameEngine.getMusicSpawnRate cfg = cfg.spawnRateMs) ∧
    (∀ m, cfg.metrics = some m → m.avgTempo ≠ 0 →
      GameEngine.getMusicSpawnRate cfg =
        max 400 (min 3000 ((60000 / m.avgTempo) * (1.5 - m.avgEnergy)))) ∧
    (∀ m, cfg.metrics = some m → 0 < m.avgTempo →
      0 ≤ m.avgEnergy → m.avgEnergy ≤ 1 →
      400 ≤ GameEngine.getMusicSpawnRate cfg ∧
        GameEngine.getMusicSpawnRate cfg ≤ 3000) := by
  refine ⟨?_, ?_, ?_⟩
  · intro h; simp [GameEngine.getMusicSpawnRate, h]
  · intro m hm hz; simp [GameEngine.getMusicSpawnRate, hm, hz]
  · intro m hm ht _ _
    have hz : m.avgTempo ≠ 0 := ne_of_gt ht
    have hre : GameEngine.getMusicSpawnRate cfg =
        max 400 (min 3000 ((60000 / m.avgTempo) * (1.5 - m.avgEnergy))) := by
      simp [GameEngine.getMusicSpawnRate, hm, hz]
    rw [hre]
    exact ⟨le_max_left _ _, max_le (by norm_num) (min_le_left _ _)⟩

/-- Witness for the C4 theorem at the tempo-140, energy-0.8 metrics. -/
theorem spawnInterval_spec_witness :
    400 ≤ GameEngine.getMusicSpawnRate cfgMetrics ∧
    GameEngine.getMusicSpawnRate cfgMetrics ≤ 3000 :=
  (spawnInterval_spec cfgMetrics).2.2 mTempo140 rfl
    (by norm_num [mTempo140]) (by norm_num [mTempo140]) (by norm_num [mTempo140])

/-- C5: speed multiplier of src/src/game/engine.ts — 1 without metrics,
(avgTempo / 120) * (0.7 + avgEnergy * 0.6) with metrics; at tempo 140
and energy 0.8 the value is 413/300, which is 1.37666..., the 1.377 of
the spec example. -/
theorem speedMultiplier_spec (cfg : GameConfiguration) :
    (cfg.metrics = none → GameEngine.getMusicSpeedMultiplier cfg = 1) ∧
    (∀ m, cfg.metrics = some m →
      GameEngine.getMusicSpeedMultiplier cfg =
        (m.avgTempo / 120) * (0.7 + m.avgEnergy * 0.6)) ∧
    GameEngine.getMusicSpeedMultiplier cfgMetrics = 413 / 300 := by
  refine ⟨?_, ?_, ?_⟩
  · intro h; simp [GameEngine.getMusicSpeedMultiplier, h]
  · intro m hm; simp [GameEngine.getMusicSpeedMultiplier, hm]
  · norm_num [GameEngine.getMusicSpeedMultiplier, cfgMetrics, mTempo140]

/-- Witness for the C5 theorem at the metrics-free configuration. -/
theorem speedMultiplier_spec_witness :
    GameEngine.getMusicSpeedMultiplier cfgNoMetrics = 1 :=
  (speedMultiplier_spec cfgNoMetrics).1 rfl

/-- C6: gravity multiplier of src/src/game/engine.ts — cfg.gravity
without metrics, cfg.gravity * (1.2 - avgAcousticness * 0.7) with
metrics; gravity 1 with acousticness 0.2 gives 1.06 and acousticness 1
gives 0.5. -/
theorem gravityMultiplier_spec (cfg : GameConfiguration) :
    (cfg.metrics = none → GameEngine.getMusicGravity cfg = cfg.gravity) ∧
    (∀ m, cfg.metrics = some m →
      GameEngine.getMusicGravity cfg =
        cfg.gravity * (1.2 - m.avgAcousticness * 0.7)) ∧
    GameEngine.getMusicGravity cfgMetrics = 1.06 ∧
    GameEngine.getMusicGravity cfgAcoustic = 0.5 := by
  refine ⟨?_, ?_, ?_, ?_⟩
  · intro h; simp [GameEngine.getMusicGravity, h]
  · intro m hm; simp [GameEngine.getMusicGravity, hm]
  · norm_num [GameEngine.getMusicGravity, cfgMetrics, mTempo140]
  · norm_num [GameEngine.getMusicGravity, cfgAcoustic, cfgMetrics, mAcoustic, mTempo140]

/-- Witness for the C6 theorem at the metrics-free configuration. -/
theorem gravityMultiplier_spec_witness :
    GameEngine.getMusicGravity cfgNoMetrics = cfgNoMetrics.gravity :=
  (gravityMultiplier_spec cfgNoMetrics).1 rfl

/-- C7: the createGame dispatch is total and every game type other than
dodge, collector and runner — in particular every unrecognized string —
sets up the platformer controller. -/
theorem createGame_default_platformer :
    ∀ gameType : String,
      gameType ≠ "dodge" → gameType ≠ "collector" → gameType ≠ "runner" →
      createGameController gameType = ControllerKind.platformer := by
  intro gt h1 h2 h3
  unfold createGameController
  by_cases p : gt = "platformer"
  · simp [p]
  · simp [p, h1, h2, h3]

/-- Witness for the C7 theorem at an unrecognized game type. -/
theorem createGame_default_platformer_witness :
    createGameController "boss-rush" = ControllerKind.platformer :=
  createGame_default_platformer "boss-rush" (by decide) (by decide) (by decide)

/-- C8 counterexample: at a present metrics record with avgTempo = 0 the
two engine copies disagree on the spawn interval — engine.ts divides by
the raw tempo (an IEEE infinity, clamped to 3000) while the duplicate
engine falls back to 120 BPM and returns 500. -/
theorem engines_spawnRate_differ_at_zero_tempo :
    GameEngine.getMusicSpawnRate cfgZeroTempo = 3000 ∧
    DupEngine.getMusicSpawnRate cfgZeroTempo = 500 ∧
    GameEngine.getMusicSpawnRate cfgZeroTempo ≠
      DupEngine.getMusicSpawnRate cfgZeroTempo := by
  refine ⟨?_, ?_, ?_⟩ <;>
    norm_num [GameEngine.getMusicSpawnRate, DupEngine.getMusicSpawnRate,
      DupEngine.getBeatMs, DupEngine.getBpm, cfgZeroTempo, mZeroTempo,
      min_def, max_def]

/-- C8 amended: the two engine copies agree on the speed and gravity
mappers for every configuration, and on the spawn interval for every
configuration whose metrics (when present) carry a nonzero tempo; the
zero-tempo divergence is the only one.  The second copy lives
concatenated in src/src/types/game.ts. -/
theorem engines_music_mappers_agree (cfg : GameConfiguration)
    (h : ∀ m, cfg.metrics = some m → m.avgTempo ≠ 0) :
    GameEngine.getMusicSpeedMultiplier cfg = DupEngine.getMusicSpeedMultiplier cfg ∧
    GameEngine.getMusicGravity cfg = DupEngine.getMusicGravity cfg ∧
    GameEngine.getMusicSpawnRate cfg = DupEngine.getMusicSpawnRate cfg := by
  refine ⟨rfl, rfl, ?_⟩
  cases hm : cfg.metrics with
  | none => simp [GameEngine.getMusicSpawnRate, DupEngine.getMusicSpawnRate, hm]
  | some m =>
      have hz := h m hm
      simp [GameEngine.getMusicSpawnRate, DupEngine.getMusicSpawnRate,
        DupEngine.getBeatMs, DupEngine.getBpm, hm, hz]

/-- Witness for the C8 theorem at the tempo-140 configuration. -/
theorem engines_music_mappers_agree_witness :
    GameEngine.getMusicSpeedMultiplier cfgMetrics = DupEngine.getMusicSpeedMultiplier cfgMetrics ∧
    GameEngine.getMusicGravity cfgMetrics = DupEngine.getMusicGravity cfgMetrics ∧
    GameEngine.getMusicSpawnRate cfgMetrics = DupEngine.getMusicSpawnRate cfgMetrics :=
  engines_music_mappers_agree cfgMetrics
    (by
      intro m hm
      simp only [cfgMetrics] at hm
      cases hm
      norm_num [mTempo140])

/-- C9 counterexample: in src/src/game/engine.ts the beat-pulse body
sets the overlay opacity to the constant 0.08, not to
0.04 + avgEnergy * 0.06 (which would be 0.1 at energy 1), and it
triggers no camera shake on the 4th beat even at maximal energy. -/
theorem beatPulse_not_energy_scaled :
    (GameEngine.beatFx cfgEnergy1 4).opacity ≠ 0.04 + mEnergy1.avgEnergy * 0.06 ∧
    (GameEngine.beatFx cfgEnergy1 4).shake = none := by
  constructor
  · norm_num [GameEngine.beatFx, mEnergy1]
  · rfl

/-- C9 amended: on every firing, the engine.ts pulse raises opacity to
the constant 0.08, fades it over 0.8 times the beat interval and never
shakes the camera; the claimed energy-scaled opacity
0.04 + avgEnergy * 0.06 and the every-4th-beat shake of magnitude
(avgEnergy - 0.5) * 6 over 0.3 times the beat interval are implemented
only by the duplicate engine in src/src/types/game.ts (and there only
for a present, nonzero avgEnergy, because of its falsy fallback to
0.5). -/
theorem beatPulse_behavior (cfg : GameConfiguration) (n : ℕ) :
    (GameEngine.beatFx cfg n).opacity = 0.08 ∧
    (GameEngine.beatFx cfg n).fadeMs = GameEngine.beatIntervalMs cfg * 0.8 ∧
    (GameEngine.beatFx cfg n).shake = none ∧
    (∀ m, cfg.metrics = some m → m.avgEnergy ≠ 0 →
      (DupEngine.beatFx cfg n).opacity = 0.04 + m.avgEnergy * 0.06 ∧
      (DupEngine.beatFx cfg n).fadeMs = DupEngine.getBeatMs cfg * 0.8 ∧
      (DupEngine.beatFx cfg n).shake =
        (if n % 4 = 0 ∧ 0.5 < m.avgEnergy then
          some ((m.avgEnergy - 0.5) * 6, DupEngine.getBeatMs cfg * 0.3)
        else none)) := by
  refine ⟨rfl, rfl, rfl, ?_⟩
  intro m hm hz
  have he : DupEngine.pulseEnergy cfg = m.avgEnergy := by
    simp [DupEngine.pulseEnergy, hm, hz]
  refine ⟨?_, rfl, ?_⟩ <;> simp [DupEngine.beatFx, he]

/-- Witness for the C9 theorem at the tempo-140, energy-0.8 metrics on
the 4th beat. -/
theorem beatPulse_behavior_witness :
    (GameEngine.beatFx cfgMetrics 4).shake = none ∧
    (DupEngine.beatFx cfgMetrics 4).opacity = 0.04 + mTempo140.avgEnergy * 0.06 :=
  ⟨(beatPulse_behavior cfgMetrics 4).2.2.1,
   ((beatPulse_behavior cfgMetrics 4).2.2.2 mTempo140 rfl
      (by norm_num [mTempo140])).1⟩

/-- Invariant carried by one collector reward: the missed counter gets
at most one increment from it, a collected reward contributes no miss,
the score contribution is 5 exactly when collected, and a live reward
has contributed nothing yet. -/
def RewardInv (st : RewardState) : Prop :=
  st.missedInc ≤ 1 ∧
  (st.collected = true → st.missedInc = 0) ∧
  st.scoreInc = (if st.collected then (5 : ℚ) else 0) ∧
  (st.alive = true → st.missedInc = 0 ∧ st.collected = false)

/-- Helper: one substrate stimulus preserves the reward invariant. -/
theorem rewardStep_preserves (st : RewardState) (s : RewardStimulus)
    (h : RewardInv st) : RewardInv (rewardStep st s) := by
  obtain ⟨h1, h2, h3, h4⟩ := h
  by_cases ha : st.alive = true
  · obtain ⟨hm0, hc0⟩ := h4 ha
    cases s with
    | overlapPlayer =>
        refine ⟨?_, ?_, ?_, ?_⟩ <;>
          simp [rewardStep, ha, hm0, hc0, h3]
    | leaveField =>
        refine ⟨?_, ?_, ?_, ?_⟩ <;>
          simp [rewardStep, ha, hm0, hc0, h3]
  · have ha2 : st.alive = false := by
      cases hb : st.alive
      · rfl
      · exact absurd hb ha
    simpa [rewardStep, ha2] using ⟨h1, h2, h3, h4⟩

/-- Helper: the reward invariant is preserved along any stimulus run. -/
theorem rewardRun_preserves (st : RewardState) (stimuli : List RewardStimulus)
    (h : RewardInv st) : RewardInv (rewardRun st stimuli) := by
  induction stimuli generalizing st with
  | nil => simpa [rewardRun] using h
  | cons s rest ih => exact ih (rewardStep st s) (rewardStep_preserves st s h)

/-- Helper: a freshly spawned reward satisfies the invariant. -/
theorem rewardInv_spawned : RewardInv RewardState.spawned := by
  unfold RewardInv RewardState.spawned
  norm_num

/-- C10: over any sequence of substrate stimuli, one collector reward
increments the missed counter at most once, a collected reward (killed
inside its collision handler) never increments it, and the score
contribution is exactly 5 when collected and 0 otherwise. -/
theorem reward_counted_at_most_once :
    ∀ stimuli : List RewardStimulus,
      (rewardRun RewardState.spawned stimuli).missedInc ≤ 1 ∧
      ((rewardRun RewardState.spawned stimuli).collected = true →
        (rewardRun RewardState.spawned stimuli).missedInc = 0) ∧
      (rewardRun RewardState.spawned stimuli).scoreInc =
        (if (rewardRun RewardState.spawned stimuli).collected then (5 : ℚ) else 0) := by
  intro stimuli
  have h := rewardRun_preserves RewardState.spawned stimuli rewardInv_spawned
  exact ⟨h.1, h.2.1, h.2.2.1⟩

/-- Witness for the C10 theorem: a reward collected on overlap and then
crossing the field boundary contributes no miss. -/
theorem reward_counted_at_most_once_witness :
    (rewardRun RewardState.spawned
      [RewardStimulus.overlapPlayer, RewardStimulus.leaveField]).missedInc = 0 :=
  (reward_counted_at_most_once
    [RewardStimulus.overlapPlayer, RewardStimulus.leaveField]).2.1 (by decide)
